import Mathlib

/-!
Verification of the carrier acceptance decision engine in
`carrier_simulation.py` (with the `Load` data model from
`load_simulation.py`), as a shallow embedding in Lean 4.

Python mutable state (`self.accepted_loads`, `self.last_reset_date`) is made
explicit as a `TrackerState` record threaded through the functions; the
ambient `random.random()` draw is made explicit as a rational parameter `r`
(one draw per `accept_load` call, matching the source, which calls
`random.random()` exactly once on each path that draws).  Python floats are
modelled as rationals; Python `defaultdict(lambda: defaultdict(int))` is
modelled by a total function `String → String → Nat` defaulting to `0`,
which is its observable read behaviour.
-/

namespace CarrierSim

/-- The `KMA` enumeration from `load_simulation.py`. -/
inductive KMA where
  | CA_STK | CA_LAX | AZ_PHO | TX_DAL | TX_HOU | NJ_ELI
  | IL_CHI | IN_IND | MN_MIN | WI_MIL | FL_LAK | GA_ATL
deriving DecidableEq, Repr, Fintype

/-- The string value of each `KMA` member (`kma.value` in Python). -/
def KMA.value : KMA → String
  | .CA_STK => "CA_STK"
  | .CA_LAX => "CA_LAX"
  | .AZ_PHO => "AZ_PHO"
  | .TX_DAL => "TX_DAL"
  | .TX_HOU => "TX_HOU"
  | .NJ_ELI => "NJ_ELI"
  | .IL_CHI => "IL_CHI"
  | .IN_IND => "IN_IND"
  | .MN_MIN => "MN_MIN"
  | .WI_MIL => "WI_MIL"
  | .FL_LAK => "FL_LAK"
  | .GA_ATL => "GA_ATL"

/-- A calendar date (year, month, day), as `datetime.date` in Python. -/
structure Date where
  year : Nat
  month : Nat
  day : Nat
deriving DecidableEq, Repr

/-- Whether `y` is a Gregorian leap year (`calendar.isleap`). -/
def isLeap (y : Nat) : Bool :=
  y % 4 = 0 && (y % 100 ≠ 0 || y % 400 = 0)

/-- Cumulative day counts before each month in a non-leap year
(`_DAYS_BEFORE_MONTH` in CPython's `datetime`). -/
def daysBeforeMonth (y m : Nat) : Nat :=
  [0, 31, 59, 90, 120, 151, 181, 212, 243, 273, 304, 334].getD (m - 1) 0
    + (if 2 < m && isLeap y then 1 else 0)

/-- Number of days before January 1 of year `y` in the proleptic Gregorian
calendar (`_days_before_year` in CPython's `datetime`). -/
def daysBeforeYear (y : Nat) : Nat :=
  (y - 1) * 365 + (y - 1) / 4 - (y - 1) / 100 + (y - 1) / 400

/-- Proleptic Gregorian ordinal of a date, with 0001-01-01 as day 1
(`date.toordinal()` in Python). -/
def Date.toordinal (d : Date) : Nat :=
  daysBeforeYear d.year + daysBeforeMonth d.year d.month + d.day

/-- Day of week, Monday = 0 .. Sunday = 6 (`date.weekday()` in Python,
which is `(toordinal + 6) % 7`). -/
def Date.weekday (d : Date) : Nat :=
  (d.toordinal + 6) % 7

/-- ISO format string `YYYY-MM-DD` (`date.isoformat()` in Python); used as
the outer dictionary key of the capacity tracker. -/
def Date.isoformat (d : Date) : String :=
  let pad : Nat → Nat → String := fun width n =>
    let s := toString n
    String.mk (List.replicate (width - s.length) '0') ++ s
  pad 4 d.year ++ "-" ++ pad 2 d.month ++ "-" ++ pad 2 d.day

/-- The `Location` model from `load_simulation.py`: a KMA plus coordinates.
Coordinates are carried but never read by the decision engine. -/
structure Location where
  kma : KMA
  latitude : ℚ
  longitude : ℚ
deriving DecidableEq

/-- The `Load` model from `load_simulation.py`. -/
structure Load where
  id : String
  origin : Location
  destination : Location
  miles : Int
  pickup_date : Date
  cost : ℚ
  weight : Int
deriving DecidableEq

/-- The mutable state of a `CarrierSimulation` instance:
`self.accepted_loads` (a date-keyed dict of lane-keyed dicts of counts,
read as a total function defaulting to 0) and `self.last_reset_date`
(initially `None`). -/
structure TrackerState where
  accepted_loads : String → String → Nat
  last_reset_date : Option Date

/-- The state built by `CarrierSimulation.__init__`: empty counters and
`last_reset_date = None`. -/
def initState : TrackerState :=
  { accepted_loads := fun _ _ => 0, last_reset_date := none }

/-- `CarrierSimulation._reset_counters_if_new_day`: if the date differs from
`last_reset_date` (including when that is `None`), clear all counters and
record the new date. -/
def resetCountersIfNewDay (s : TrackerState) (current_date : Date) : TrackerState :=
  if s.last_reset_date ≠ some current_date then
    { accepted_loads := fun _ _ => 0, last_reset_date := some current_date }
  else s

/-- `CarrierSimulation._get_lane_key`: the string
`f"{origin.value}-{destination.value}"`. -/
def getLaneKey (origin destination : KMA) : String :=
  origin.value ++ "-" ++ destination.value

/-- `CarrierSimulation._calculate_cost_per_mile`:
`load.cost / load.miles if load.miles > 0 else 0`. -/
def calculateCostPerMile (load : Load) : ℚ :=
  if load.miles > 0 then load.cost / (load.miles : ℚ) else 0

/-- `CarrierSimulation._check_lane_capacity`: the count recorded for this
date and lane is below `max_loads`. -/
def checkLaneCapacity (s : TrackerState) (origin destination : KMA)
    (pickup_date : Date) (max_loads : Nat) : Bool :=
  s.accepted_loads pickup_date.isoformat (getLaneKey origin destination) < max_loads

/-- `CarrierSimulation._increment_lane_counter`: add 1 to the count recorded
for this date and lane, leaving every other entry unchanged. -/
def incrementLaneCounter (s : TrackerState) (origin destination : KMA)
    (pickup_date : Date) : TrackerState :=
  { s with accepted_loads := fun dk lk =>
      if dk = pickup_date.isoformat ∧ lk = getLaneKey origin destination then
        s.accepted_loads dk lk + 1
      else s.accepted_loads dk lk }

/-- `CarrierSimulation._is_weekend`: `pickup_date.weekday() >= 5`. -/
def isWeekend (pickup_date : Date) : Bool :=
  pickup_date.weekday ≥ 5

/-- The weight modifier of `accept_load` (line 82):
`0.7 if weight > 35000 else 1.0`. -/
def weightFactor (weight : Int) : ℚ :=
  if weight > 35000 then 7/10 else 1

/-- The cost-per-mile modifier of `accept_load` (lines 85-87):
`0.7 if cost_per_mile < 1.0 else (1.3 if cost_per_mile > 2.5 else 1.0)`. -/
def cpmFactor (cost_per_mile : ℚ) : ℚ :=
  if cost_per_mile < 1 then 7/10 else if cost_per_mile > 5/2 then 13/10 else 1

/-- `CarrierSimulation.accept_load`, with the random draw `r` (the value of
`random.random()`) passed explicitly; returns the decision together with the
successor tracker state.  The Python early `return`s are rendered as the
branches of the `if` cascade; the common tail after the lane rules (final
probability, draw, conditional increment) is the local `finish`. -/
def accept_load (s0 : TrackerState) (load : Load) (r : ℚ) : Bool × TrackerState :=
  let s := resetCountersIfNewDay s0 load.pickup_date
  let origin_kma := load.origin.kma
  let destination_kma := load.destination.kma
  let pickup_date := load.pickup_date
  let weight := load.weight
  let cost_per_mile := calculateCostPerMile load
  if isWeekend pickup_date then
    (decide (r < 5/100), s)
  else
    let weight_factor : ℚ := weightFactor weight
    let cpm_factor : ℚ := cpmFactor cost_per_mile
    let finish : ℚ → Bool × TrackerState := fun base_prob =>
      let final_prob := base_prob * weight_factor * cpm_factor
      let decision := decide (r < final_prob)
      if decision then
        (true, incrementLaneCounter s origin_kma destination_kma pickup_date)
      else (false, s)
    if (origin_kma = KMA.CA_LAX ∧ destination_kma = KMA.CA_STK) ∨
        (origin_kma = KMA.CA_STK ∧ destination_kma = KMA.CA_LAX) then
      if checkLaneCapacity s origin_kma destination_kma pickup_date 10 then
        finish (85/100)
      else (false, s)
    else if origin_kma = KMA.TX_DAL ∧ destination_kma = KMA.TX_HOU then
      if checkLaneCapacity s origin_kma destination_kma pickup_date 5 then
        finish (9/10)
      else (false, s)
    else if origin_kma = KMA.TX_HOU ∧ destination_kma = KMA.TX_DAL then
      if checkLaneCapacity s origin_kma destination_kma pickup_date 1 then
        finish (2/10)
      else (false, s)
    else if (origin_kma = KMA.NJ_ELI ∧ destination_kma = KMA.IL_CHI) ∨
        (origin_kma = KMA.IL_CHI ∧ destination_kma = KMA.NJ_ELI) then
      if pickup_date.year = 2025 ∧ pickup_date.month = 2 then (false, s)
      else if checkLaneCapacity s origin_kma destination_kma pickup_date 1 then
        finish (1/2)
      else (false, s)
    else if (origin_kma = KMA.GA_ATL ∧ destination_kma = KMA.IL_CHI) ∨
        (destination_kma = KMA.GA_ATL ∧ origin_kma = KMA.IL_CHI) then
      if pickup_date.month = 4 ∨ pickup_date.month = 5 then (false, s)
      else if checkLaneCapacity s origin_kma destination_kma pickup_date 10 then
        finish (8/10)
      else (false, s)
    else if (origin_kma = KMA.FL_LAK ∧ destination_kma = KMA.IL_CHI) ∨
        (destination_kma = KMA.FL_LAK ∧ origin_kma = KMA.IL_CHI) then
      if ¬(pickup_date.month = 4 ∨ pickup_date.month = 5) then (false, s)
      else if checkLaneCapacity s origin_kma destination_kma pickup_date 10 then
        finish (85/100)
      else (false, s)
    else
      finish (1/1000)

/-- `process_load_offers`, with the stream of random draws passed as a list
consumed one element per load (missing draws default to 0, which Python
cannot hit since its stream is unbounded). -/
def process_load_offers (loads : List Load) (rs : List ℚ) : List Load × List Load :=
  processLoop initState loads rs
where
  /-- The `for load in loads` loop body of `process_load_offers`, threading
  the shared `CarrierSimulation` instance. -/
  processLoop : TrackerState → List Load → List ℚ → List Load × List Load
    | _, [], _ => ([], [])
    | s, load :: rest, rs =>
      let res := accept_load s load (rs.headD 0)
      let tailOut := processLoop res.2 rest rs.tail
      if res.1 then (load :: tailOut.1, tailOut.2)
      else (tailOut.1, load :: tailOut.2)

/-- `calculate_acceptance_rate`, with the random draws passed as a list;
a draw is consumed only for loads matching the requested lane, because the
source calls `accept_load` (the only consumer of randomness) only on those. -/
def calculate_acceptance_rate (origin_kma destination_kma : KMA)
    (loads : List Load) (rs : List ℚ) : Nat × Nat × ℚ :=
  let p := rateLoop origin_kma destination_kma initState loads rs
  let rate : ℚ := if p.2 > 0 then (p.1 : ℚ) / (p.2 : ℚ) else 0
  (p.1, p.2, rate)
where
  /-- The `for load in loads` loop of `calculate_acceptance_rate`, returning
  the accumulated (accepted, total) pair. -/
  rateLoop : KMA → KMA → TrackerState → List Load → List ℚ → Nat × Nat
    | _, _, _, [], _ => (0, 0)
    | o, d, s, load :: rest, rs =>
      if load.origin.kma = o ∧ load.destination.kma = d then
        let res := accept_load s load (rs.headD 0)
        let tailOut := rateLoop o d res.2 rest rs.tail
        (tailOut.1 + (if res.1 then 1 else 0), tailOut.2 + 1)
      else
        rateLoop o d s rest rs

/-- The lane policy table of spec §4.1, read off the `if` cascade of
`accept_load` in its precedence order: the per-date capacity limit and base
acceptance probability of the first entry matching an (origin, destination)
pair, or `none` when no lane matches (the 0.001-default path). -/
def matchedPolicy (o d : KMA) : Option (Nat × ℚ) :=
  if (o = KMA.CA_LAX ∧ d = KMA.CA_STK) ∨ (o = KMA.CA_STK ∧ d = KMA.CA_LAX) then
    some (10, 85/100)
  else if o = KMA.TX_DAL ∧ d = KMA.TX_HOU then some (5, 9/10)
  else if o = KMA.TX_HOU ∧ d = KMA.TX_DAL then some (1, 2/10)
  else if (o = KMA.NJ_ELI ∧ d = KMA.IL_CHI) ∨ (o = KMA.IL_CHI ∧ d = KMA.NJ_ELI) then
    some (1, 1/2)
  else if (o = KMA.GA_ATL ∧ d = KMA.IL_CHI) ∨ (d = KMA.GA_ATL ∧ o = KMA.IL_CHI) then
    some (10, 8/10)
  else if (o = KMA.FL_LAK ∧ d = KMA.IL_CHI) ∨ (d = KMA.FL_LAK ∧ o = KMA.IL_CHI) then
    some (10, 85/100)
  else none

/-- The seasonal gate of spec §4.1 for the entry of `matchedPolicy` matching
an (origin, destination) pair on a given date: false exactly when the
source's seasonal check would force an immediate rejection. -/
def laneSeasonalOk (o d : KMA) (dt : Date) : Bool :=
  if (o = KMA.NJ_ELI ∧ d = KMA.IL_CHI) ∨ (o = KMA.IL_CHI ∧ d = KMA.NJ_ELI) then
    ¬(dt.year = 2025 ∧ dt.month = 2)
  else if (o = KMA.GA_ATL ∧ d = KMA.IL_CHI) ∨ (d = KMA.GA_ATL ∧ o = KMA.IL_CHI) then
    ¬(dt.month = 4 ∨ dt.month = 5)
  else if (o = KMA.FL_LAK ∧ d = KMA.IL_CHI) ∨ (d = KMA.FL_LAK ∧ o = KMA.IL_CHI) then
    dt.month = 4 ∨ dt.month = 5
  else true

/-- The common tail of the non-weekend path of `accept_load` (the source's
lines 173-183): draw against the final probability and, on acceptance,
increment the lane counter. -/
def acceptFinish (s : TrackerState) (l : Load) (r base_prob : ℚ) : Bool × TrackerState :=
  if r < base_prob * weightFactor l.weight * cpmFactor (calculateCostPerMile l) then
    (true, incrementLaneCounter s l.origin.kma l.destination.kma l.pickup_date)
  else (false, s)

/-- After `resetCountersIfNewDay s d`, the recorded last date is `d`
(either the reset just set it, or it was already `some d`). -/
lemma reset_last (s : TrackerState) (d : Date) :
    (resetCountersIfNewDay s d).last_reset_date = some d := by
  unfold resetCountersIfNewDay
  split_ifs with h
  · rfl
  · rw [not_not] at h
    exact h

/-- A reset never increases any counter: it leaves the map alone or zeroes it. -/
lemma reset_counters_le (s : TrackerState) (d : Date) (dk lk : String) :
    (resetCountersIfNewDay s d).accepted_loads dk lk ≤ s.accepted_loads dk lk := by
  unfold resetCountersIfNewDay
  split_ifs <;> simp

set_option maxHeartbeats 1000000 in
/-- Characterization of the non-weekend path of `accept_load` through the
lane policy table: the `if` cascade of the source is exactly "first match in
`matchedPolicy`, then seasonal gate, then capacity gate, then the final
draw". -/
lemma accept_load_char (s : TrackerState) (l : Load) (r : ℚ)
    (hw : isWeekend l.pickup_date = false) :
    accept_load s l r =
      (match matchedPolicy l.origin.kma l.destination.kma with
       | none => acceptFinish (resetCountersIfNewDay s l.pickup_date) l r (1/1000)
       | some (limit, bp) =>
         if laneSeasonalOk l.origin.kma l.destination.kma l.pickup_date then
           if checkLaneCapacity (resetCountersIfNewDay s l.pickup_date) l.origin.kma
               l.destination.kma l.pickup_date limit then
             acceptFinish (resetCountersIfNewDay s l.pickup_date) l r bp
           else (false, resetCountersIfNewDay s l.pickup_date)
         else (false, resetCountersIfNewDay s l.pickup_date)) := by
  by_cases h1 : (l.origin.kma = KMA.CA_LAX ∧ l.destination.kma = KMA.CA_STK) ∨
      (l.origin.kma = KMA.CA_STK ∧ l.destination.kma = KMA.CA_LAX)
  · rcases h1 with ⟨ho, hd⟩ | ⟨ho, hd⟩ <;>
      simp +decide [accept_load, matchedPolicy, laneSeasonalOk, acceptFinish, ho, hd, hw]
  · by_cases h2 : l.origin.kma = KMA.TX_DAL ∧ l.destination.kma = KMA.TX_HOU
    · obtain ⟨ho, hd⟩ := h2
      simp +decide [accept_load, matchedPolicy, laneSeasonalOk, acceptFinish, ho, hd, hw]
    · by_cases h3 : l.origin.kma = KMA.TX_HOU ∧ l.destination.kma = KMA.TX_DAL
      · obtain ⟨ho, hd⟩ := h3
        simp +decide [accept_load, matchedPolicy, laneSeasonalOk, acceptFinish, ho, hd, hw]
      · by_cases h4 : (l.origin.kma = KMA.NJ_ELI ∧ l.destination.kma = KMA.IL_CHI) ∨
            (l.origin.kma = KMA.IL_CHI ∧ l.destination.kma = KMA.NJ_ELI)
        · rcases h4 with ⟨ho, hd⟩ | ⟨ho, hd⟩ <;>
            by_cases hy : l.pickup_date.year = 2025 <;>
            by_cases hm : l.pickup_date.month = 2 <;>
            simp +decide [accept_load, matchedPolicy, laneSeasonalOk, acceptFinish,
              ho, hd, hw, hy, hm]
        · by_cases h5 : (l.origin.kma = KMA.GA_ATL ∧ l.destination.kma = KMA.IL_CHI) ∨
              (l.destination.kma = KMA.GA_ATL ∧ l.origin.kma = KMA.IL_CHI)
          · rcases h5 with ⟨ho, hd⟩ | ⟨hd, ho⟩ <;>
              by_cases h4m : l.pickup_date.month = 4 <;>
              by_cases h5m : l.pickup_date.month = 5 <;>
              simp +decide [accept_load, matchedPolicy, laneSeasonalOk, acceptFinish,
                ho, hd, hw, h4m, h5m]
          · by_cases h6 : (l.origin.kma = KMA.FL_LAK ∧ l.destination.kma = KMA.IL_CHI) ∨
                (l.destination.kma = KMA.FL_LAK ∧ l.origin.kma = KMA.IL_CHI)
            · rcases h6 with ⟨ho, hd⟩ | ⟨hd, ho⟩ <;>
                by_cases h4m : l.pickup_date.month = 4 <;>
                by_cases h5m : l.pickup_date.month = 5 <;>
                simp +decide [accept_load, matchedPolicy, laneSeasonalOk, acceptFinish,
                  ho, hd, hw, h4m, h5m]
            · simp [accept_load, matchedPolicy, laneSeasonalOk, acceptFinish,
                h1, h2, h3, h4, h5, h6, hw]

/-- Every path of `accept_load` leaves the last-seen date equal to the
processed load's pickup date. -/
lemma accept_load_last_reset (s : TrackerState) (l : Load) (r : ℚ) :
    (accept_load s l r).2.last_reset_date = some l.pickup_date := by
  by_cases hw : isWeekend l.pickup_date = true
  · simp only [accept_load, hw, if_true]
    exact reset_last s l.pickup_date
  · rw [Bool.not_eq_true] at hw
    rw [accept_load_char s l r hw]
    cases hmp : matchedPolicy l.origin.kma l.destination.kma with
    | none =>
      simp only [acceptFinish]
      split_ifs <;> simp [incrementLaneCounter, reset_last]
    | some p =>
      obtain ⟨limit, bp⟩ := p
      simp only [acceptFinish]
      split_ifs <;> simp [incrementLaneCounter, reset_last]

/-- The loop of `process_load_offers` always produces two order-preserving
subsequences that partition the input, whatever the tracker state and draws. -/
lemma processLoop_partition (s : TrackerState) (loads : List Load) (rs : List ℚ) :
    (process_load_offers.processLoop s loads rs).1.Sublist loads ∧
    (process_load_offers.processLoop s loads rs).2.Sublist loads ∧
    ∀ l, (process_load_offers.processLoop s loads rs).1.count l
        + (process_load_offers.processLoop s loads rs).2.count l = loads.count l := by
  induction loads generalizing s rs with
  | nil => simp [process_load_offers.processLoop]
  | cons load rest ih =>
    obtain ⟨ih1, ih2, ih3⟩ := ih (accept_load s load (rs.headD 0)).2 rs.tail
    simp only [process_load_offers.processLoop]
    split_ifs with hdec
    · refine ⟨List.Sublist.cons₂ load ih1, List.Sublist.cons load ih2, ?_⟩
      intro l
      simp only [List.count_cons]
      have := ih3 l
      split_ifs <;> omega
    · refine ⟨List.Sublist.cons load ih1, List.Sublist.cons₂ load ih2, ?_⟩
      intro l
      simp only [List.count_cons]
      have := ih3 l
      split_ifs <;> omega

/-- The loop of `calculate_acceptance_rate` accepts at most as many loads as
it counts, and counts exactly the loads matching the requested lane. -/
lemma rateLoop_le_count (o d : KMA) (s : TrackerState) (loads : List Load) (rs : List ℚ) :
    (calculate_acceptance_rate.rateLoop o d s loads rs).1
      ≤ (calculate_acceptance_rate.rateLoop o d s loads rs).2 ∧
    (calculate_acceptance_rate.rateLoop o d s loads rs).2
      = loads.countP (fun l => l.origin.kma = o ∧ l.destination.kma = d) := by
  induction loads generalizing s rs with
  | nil => simp [calculate_acceptance_rate.rateLoop]
  | cons load rest ih =>
    obtain ⟨ihm1, ihm2⟩ := ih (accept_load s load (rs.headD 0)).2 rs.tail
    obtain ⟨ihn1, ihn2⟩ := ih s rs
    by_cases hmatch : load.origin.kma = o ∧ load.destination.kma = d
    · simp only [calculate_acceptance_rate.rateLoop, if_pos hmatch]
      constructor
      · dsimp only
        split_ifs <;> omega
      · dsimp only
        rw [ihm2, List.countP_cons, if_pos]
        simp [hmatch]
    · simp only [calculate_acceptance_rate.rateLoop, if_neg hmatch]
      refine ⟨ihn1, ?_⟩
      rw [ihn2, List.countP_cons, if_neg]
      · omega
      · simp [hmatch]

/-- C1: for every non-weekend load matching a lane policy entry, if the
tracker's last-seen date equals the load's pickup date and the accepted
count for (pickup date, directional lane) has reached that entry's capacity
limit, `accept_load` returns rejected for every possible random draw — no
probability computation influences the outcome. -/
theorem capacity_at_limit_forces_rejection (s : TrackerState) (l : Load) (r : ℚ)
    (limit : Nat) (bp : ℚ)
    (hw : isWeekend l.pickup_date = false)
    (hd : s.last_reset_date = some l.pickup_date)
    (hm : matchedPolicy l.origin.kma l.destination.kma = some (limit, bp))
    (hcap : limit ≤ s.accepted_loads l.pickup_date.isoformat
      (getLaneKey l.origin.kma l.destination.kma)) :
    (accept_load s l r).1 = false := by
  have hs : resetCountersIfNewDay s l.pickup_date = s := by
    unfold resetCountersIfNewDay
    rw [if_neg]
    simp [hd]
  have hc : checkLaneCapacity s l.origin.kma l.destination.kma l.pickup_date limit
      = false := by
    simp only [checkLaneCapacity, decide_eq_false_iff_not, not_lt]
    exact hcap
  rw [accept_load_char s l r hw, hm]
  simp only [hs, hc]
  split_ifs <;> first | rfl | contradiction

/-- C1 witness: a Monday DAL→HOU load at a tracker already recording 10
accepted loads for that date and lane (limit 5) is rejected even at draw
1/2 < 0.9. -/
theorem capacity_at_limit_forces_rejection_witness :
    (accept_load
      { accepted_loads := fun _ _ => 10,
        last_reset_date := some { year := 2025, month := 4, day := 7 } }
      { id := "w1", origin := { kma := KMA.TX_DAL, latitude := 0, longitude := 0 },
        destination := { kma := KMA.TX_HOU, latitude := 0, longitude := 0 },
        miles := 1000, pickup_date := { year := 2025, month := 4, day := 7 },
        cost := 2000, weight := 20000 } (1/2)).1 = false :=
  capacity_at_limit_forces_rejection _ _ _ 5 (9/10) (by decide) rfl
    (by simp +decide [matchedPolicy]) (by decide)

/-- C2: whenever the pickup date differs from the tracker's last-seen date
(including the very first call, when it is `None`), all accepted-load
counters for all dates and lanes are cleared and the last-seen date becomes
the pickup date; consequently, after processing loads dated d1 then d2 with
d2 ≠ d1, a third load dated d1 is processed against zeroed counters — the
spurious reset of the out-of-order hazard. -/
theorem reset_on_new_date_and_spurious_reset :
    (∀ (s : TrackerState) (d : Date), s.last_reset_date ≠ some d →
      resetCountersIfNewDay s d
        = { accepted_loads := fun _ _ => 0, last_reset_date := some d }) ∧
    (∀ (s : TrackerState) (l1 l2 l3 : Load) (r1 r2 : ℚ),
      l1.pickup_date = l3.pickup_date → l2.pickup_date ≠ l3.pickup_date →
      resetCountersIfNewDay (accept_load (accept_load s l1 r1).2 l2 r2).2 l3.pickup_date
        = { accepted_loads := fun _ _ => 0, last_reset_date := some l3.pickup_date }) := by
  constructor
  · intro s d h
    unfold resetCountersIfNewDay
    rw [if_pos h]
  · intro s l1 l2 l3 r1 r2 _ h23
    have hne : (accept_load (accept_load s l1 r1).2 l2 r2).2.last_reset_date
        ≠ some l3.pickup_date := by
      rw [accept_load_last_reset]
      simp [h23]
    unfold resetCountersIfNewDay
    rw [if_pos hne]

/-- C2 witness: the first call resets a fresh tracker, and a d1, d2, d1
sequence of DAL→HOU loads reaches the third call with zeroed counters. -/
theorem reset_on_new_date_and_spurious_reset_witness :
    resetCountersIfNewDay initState { year := 2025, month := 1, day := 6 }
      = { accepted_loads := fun _ _ => 0,
          last_reset_date := some { year := 2025, month := 1, day := 6 } } ∧
    resetCountersIfNewDay
        (accept_load
          (accept_load initState
            { id := "a", origin := { kma := KMA.TX_DAL, latitude := 0, longitude := 0 },
              destination := { kma := KMA.TX_HOU, latitude := 0, longitude := 0 },
              miles := 1000, pickup_date := { year := 2025, month := 4, day := 7 },
              cost := 2000, weight := 20000 } (1/2)).2
          { id := "b", origin := { kma := KMA.TX_DAL, latitude := 0, longitude := 0 },
            destination := { kma := KMA.TX_HOU, latitude := 0, longitude := 0 },
            miles := 1000, pickup_date := { year := 2025, month := 4, day := 8 },
            cost := 2000, weight := 20000 } (1/2)).2
        { year := 2025, month := 4, day := 7 }
      = { accepted_loads := fun _ _ => 0,
          last_reset_date := some { year := 2025, month := 4, day := 7 } } :=
  ⟨reset_on_new_date_and_spurious_reset.1 initState _ (by simp [initState]),
   reset_on_new_date_and_spurious_reset.2 initState _ _
     { id := "c", origin := { kma := KMA.TX_DAL, latitude := 0, longitude := 0 },
       destination := { kma := KMA.TX_HOU, latitude := 0, longitude := 0 },
       miles := 1000, pickup_date := { year := 2025, month := 4, day := 7 },
       cost := 2000, weight := 20000 } (1/2) (1/2) rfl (by decide)⟩

/-- C3: for every load with a Saturday/Sunday pickup date, `accept_load`
accepts iff the uniform draw is below 0.05, regardless of lane, weight,
cost or capacity state; the resulting tracker state is exactly the
post-reset state — no capacity counter is ever incremented on this path,
even on acceptance. -/
theorem weekend_path_draw_and_no_increment (s : TrackerState) (l : Load) (r : ℚ)
    (hw : isWeekend l.pickup_date = true) :
    (accept_load s l r).1 = decide (r < 5/100) ∧
    (accept_load s l r).2 = resetCountersIfNewDay s l.pickup_date ∧
    ∀ dk lk, (accept_load s l r).2.accepted_loads dk lk ≤ s.accepted_loads dk lk := by
  have h : accept_load s l r
      = (decide (r < 5/100), resetCountersIfNewDay s l.pickup_date) := by
    simp only [accept_load, hw, if_true]
  refine ⟨by rw [h], by rw [h], ?_⟩
  intro dk lk
  rw [h]
  exact reset_counters_le s l.pickup_date dk lk

/-- C3 witness: a Sunday LAX→STK load is decided purely by the draw against
0.05. -/
theorem weekend_path_draw_and_no_increment_witness :
    (accept_load initState
      { id := "w3", origin := { kma := KMA.CA_LAX, latitude := 0, longitude := 0 },
        destination := { kma := KMA.CA_STK, latitude := 0, longitude := 0 },
        miles := 300, pickup_date := { year := 2025, month := 2, day := 2 },
        cost := 600, weight := 40000 } (1/100)).1
      = decide ((1:ℚ)/100 < 5/100) :=
  (weekend_path_draw_and_no_increment initState _ (1/100) (by decide)).1

/-- C4 counterexample: an NJ_ELI→IL_CHI offer picked up on Saturday
2025-02-01 — inside the blackout month — is ACCEPTED at draw 0, because the
weekend path runs before every seasonal gate; so the blackout lane is not
deterministically rejected for all offers in February 2025. -/
theorem seasonal_blackout_claim_counterexample :
    (accept_load initState
      { id := "ce", origin := { kma := KMA.NJ_ELI, latitude := 0, longitude := 0 },
        destination := { kma := KMA.IL_CHI, latitude := 0, longitude := 0 },
        miles := 800, pickup_date := { year := 2025, month := 2, day := 1 },
        cost := 1600, weight := 20000 } 0).1 = true := by
  have hw : isWeekend { year := 2025, month := 2, day := 1 : Date } = true := by decide
  simp only [accept_load, hw, if_true, decide_eq_true_eq]
  norm_num

/-- C4 (amended to non-weekend pickup dates): NJ_ELI↔IL_CHI offers dated in
February 2025 are deterministically rejected; FL_LAK↔IL_CHI offers outside
April/May are deterministically rejected, and inside April/May are never
rejected for seasonal reasons (with capacity available the decision is the
ordinary draw against 0.85 with modifiers); GA_ATL↔IL_CHI offers dated in
April or May are deterministically rejected. -/
theorem seasonal_gates_reject_nonweekend (s : TrackerState) (l : Load) (r : ℚ)
    (hw : isWeekend l.pickup_date = false) :
    (((l.origin.kma = KMA.NJ_ELI ∧ l.destination.kma = KMA.IL_CHI) ∨
        (l.origin.kma = KMA.IL_CHI ∧ l.destination.kma = KMA.NJ_ELI)) →
      l.pickup_date.year = 2025 → l.pickup_date.month = 2 →
      (accept_load s l r).1 = false) ∧
    (((l.origin.kma = KMA.FL_LAK ∧ l.destination.kma = KMA.IL_CHI) ∨
        (l.destination.kma = KMA.FL_LAK ∧ l.origin.kma = KMA.IL_CHI)) →
      l.pickup_date.month ≠ 4 → l.pickup_date.month ≠ 5 →
      (accept_load s l r).1 = false) ∧
    (((l.origin.kma = KMA.FL_LAK ∧ l.destination.kma = KMA.IL_CHI) ∨
        (l.destination.kma = KMA.FL_LAK ∧ l.origin.kma = KMA.IL_CHI)) →
      (l.pickup_date.month = 4 ∨ l.pickup_date.month = 5) →
      checkLaneCapacity (resetCountersIfNewDay s l.pickup_date) l.origin.kma
          l.destination.kma l.pickup_date 10 = true →
      (accept_load s l r).1
        = decide (r < 85/100 * weightFactor l.weight
            * cpmFactor (calculateCostPerMile l))) ∧
    (((l.origin.kma = KMA.GA_ATL ∧ l.destination.kma = KMA.IL_CHI) ∨
        (l.destination.kma = KMA.GA_ATL ∧ l.origin.kma = KMA.IL_CHI)) →
      (l.pickup_date.month = 4 ∨ l.pickup_date.month = 5) →
      (accept_load s l r).1 = false) := by
  refine ⟨?_, ?_, ?_, ?_⟩
  · intro hlane hy hmn
    have hm : matchedPolicy l.origin.kma l.destination.kma = some (1, 1/2) := by
      rcases hlane with ⟨ho, hd⟩ | ⟨ho, hd⟩ <;> simp +decide [matchedPolicy, ho, hd]
    have hso : laneSeasonalOk l.origin.kma l.destination.kma l.pickup_date = false := by
      rcases hlane with ⟨ho, hd⟩ | ⟨ho, hd⟩ <;>
        simp +decide [laneSeasonalOk, ho, hd, hy, hmn]
    rw [accept_load_char s l r hw, hm]
    simp [hso]
  · intro hlane h4 h5
    have hm : matchedPolicy l.origin.kma l.destination.kma = some (10, 85/100) := by
      rcases hlane with ⟨ho, hd⟩ | ⟨hd, ho⟩ <;> simp +decide [matchedPolicy, ho, hd]
    have hso : laneSeasonalOk l.origin.kma l.destination.kma l.pickup_date = false := by
      rcases hlane with ⟨ho, hd⟩ | ⟨hd, ho⟩ <;>
        simp +decide [laneSeasonalOk, ho, hd, h4, h5]
    rw [accept_load_char s l r hw, hm]
    simp [hso]
  · intro hlane hm45 hcap
    have hm : matchedPolicy l.origin.kma l.destination.kma = some (10, 85/100) := by
      rcases hlane with ⟨ho, hd⟩ | ⟨hd, ho⟩ <;> simp +decide [matchedPolicy, ho, hd]
    have hso : laneSeasonalOk l.origin.kma l.destination.kma l.pickup_date = true := by
      rcases hlane with ⟨ho, hd⟩ | ⟨hd, ho⟩ <;> rcases hm45 with h | h <;>
        simp +decide [laneSeasonalOk, ho, hd, h]
    rw [accept_load_char s l r hw, hm]
    simp only [hso, hcap, if_true, acceptFinish]
    split_ifs with h
    · exact (decide_eq_true h).symm
    · exact (decide_eq_false h).symm
  · intro hlane hm45
    have hm : matchedPolicy l.origin.kma l.destination.kma = some (10, 8/10) := by
      rcases hlane with ⟨ho, hd⟩ | ⟨hd, ho⟩ <;> simp +decide [matchedPolicy, ho, hd]
    have hso : laneSeasonalOk l.origin.kma l.destination.kma l.pickup_date = false := by
      rcases hlane with ⟨ho, hd⟩ | ⟨hd, ho⟩ <;> rcases hm45 with h | h <;>
        simp +decide [laneSeasonalOk, ho, hd, h]
    rw [accept_load_char s l r hw, hm]
    simp [hso]

/-- C4 witness: a Monday NJ_ELI→IL_CHI offer in February 2025 is rejected
even at draw 0. -/
theorem seasonal_gates_reject_nonweekend_witness :
    (accept_load initState
      { id := "w4", origin := { kma := KMA.NJ_ELI, latitude := 0, longitude := 0 },
        destination := { kma := KMA.IL_CHI, latitude := 0, longitude := 0 },
        miles := 800, pickup_date := { year := 2025, month := 2, day := 3 },
        cost := 1600, weight := 20000 } 0).1 = false :=
  (seasonal_gates_reject_nonweekend initState _ 0 (by decide)).1
    (Or.inl ⟨rfl, rfl⟩) rfl rfl

/-- C5: a non-weekend load that passes the matched lane's seasonal and
capacity gates is accepted iff the draw is below baseProb × weightFactor ×
cpmFactor, with baseProb the matched policy's base probability (0.001 when
no lane matches); the boundary cases cpm = 1.0 and cpm = 2.5 both give the
neutral factor 1, cpm = 0.99 gives 0.7, cpm = 2.51 gives 1.3, and the §8
examples compose to 0.90 and 0.63. -/
theorem final_prob_composition (s : TrackerState) (l : Load) (r : ℚ)
    (hw : isWeekend l.pickup_date = false) :
    (matchedPolicy l.origin.kma l.destination.kma = none →
      (accept_load s l r).1
        = decide (r < 1/1000 * weightFactor l.weight
            * cpmFactor (calculateCostPerMile l))) ∧
    (∀ (limit : Nat) (bp : ℚ),
      matchedPolicy l.origin.kma l.destination.kma = some (limit, bp) →
      laneSeasonalOk l.origin.kma l.destination.kma l.pickup_date = true →
      checkLaneCapacity (resetCountersIfNewDay s l.pickup_date) l.origin.kma
        l.destination.kma l.pickup_date limit = true →
      (accept_load s l r).1
        = decide (r < bp * weightFactor l.weight
            * cpmFactor (calculateCostPerMile l))) ∧
    cpmFactor 1 = 1 ∧ cpmFactor (5/2) = 1 ∧
    cpmFactor (99/100) = 7/10 ∧ cpmFactor (251/100) = 13/10 ∧
    (9:ℚ)/10 * weightFactor 20000 * cpmFactor 2 = 9/10 ∧
    (9:ℚ)/10 * weightFactor 40000 * cpmFactor 2 = 63/100 := by
  refine ⟨?_, ?_, by norm_num [cpmFactor], by norm_num [cpmFactor],
    by norm_num [cpmFactor], by norm_num [cpmFactor],
    by norm_num [weightFactor, cpmFactor], by norm_num [weightFactor, cpmFactor]⟩
  · intro hm
    rw [accept_load_char s l r hw, hm]
    simp only [acceptFinish]
    split_ifs with h
    · exact (decide_eq_true h).symm
    · exact (decide_eq_false h).symm
  · intro limit bp hm hso hcap
    rw [accept_load_char s l r hw, hm]
    simp only [hso, hcap, if_true, acceptFinish]
    split_ifs with h
    · exact (decide_eq_true h).symm
    · exact (decide_eq_false h).symm

/-- C5 witness: the §8 DAL→HOU example load (weight 20000, cost 2000,
miles 1000, Monday) with capacity available is decided by the draw against
0.9 × 1 × 1. -/
theorem final_prob_composition_witness :
    (accept_load initState
      { id := "w5", origin := { kma := KMA.TX_DAL, latitude := 0, longitude := 0 },
        destination := { kma := KMA.TX_HOU, latitude := 0, longitude := 0 },
        miles := 1000, pickup_date := { year := 2025, month := 4, day := 7 },
        cost := 2000, weight := 20000 } (1/2)).1
      = decide ((1:ℚ)/2 < 9/10 * weightFactor 20000
          * cpmFactor (calculateCostPerMile
            { id := "w5", origin := { kma := KMA.TX_DAL, latitude := 0, longitude := 0 },
              destination := { kma := KMA.TX_HOU, latitude := 0, longitude := 0 },
              miles := 1000, pickup_date := { year := 2025, month := 4, day := 7 },
              cost := 2000, weight := 20000 })) :=
  (final_prob_composition initState _ (1/2) (by decide)).2.1 5 (9/10)
    (by simp +decide [matchedPolicy]) (by simp +decide [laneSeasonalOk])
    (by simp [resetCountersIfNewDay, initState, checkLaneCapacity])

/-- C6: recording an acceptance for lane (O→D) on date d increments exactly
the counter keyed by (d, O→D) and leaves every other (date key, lane key)
counter and the last-seen date unchanged; distinct directional lanes have
distinct keys, in particular the reverse lane (D→O) when O ≠ D. -/
theorem increment_frame_and_directional_independence :
    (∀ (s : TrackerState) (o d : KMA) (dt : Date),
      (incrementLaneCounter s o d dt).accepted_loads dt.isoformat (getLaneKey o d)
        = s.accepted_loads dt.isoformat (getLaneKey o d) + 1) ∧
    (∀ (s : TrackerState) (o d : KMA) (dt : Date) (dk lk : String),
      dk ≠ dt.isoformat ∨ lk ≠ getLaneKey o d →
      (incrementLaneCounter s o d dt).accepted_loads dk lk = s.accepted_loads dk lk) ∧
    (∀ o d : KMA, o ≠ d → getLaneKey o d ≠ getLaneKey d o) ∧
    (∀ (s : TrackerState) (o d : KMA) (dt : Date),
      (incrementLaneCounter s o d dt).last_reset_date = s.last_reset_date) := by
  refine ⟨?_, ?_, by decide, fun s o d dt => rfl⟩
  · intro s o d dt
    simp [incrementLaneCounter]
  · intro s o d dt dk lk h
    simp only [incrementLaneCounter]
    rw [if_neg]
    rintro ⟨h1, h2⟩
    rcases h with h | h <;> exact h (by simp [h1, h2])

/-- C6 witness: incrementing LAX→STK leaves the reverse-lane counter
STK→LAX for the same date untouched, and the two lane keys differ. -/
theorem increment_frame_and_directional_independence_witness :
    (incrementLaneCounter initState KMA.CA_LAX KMA.CA_STK
        { year := 2025, month := 4, day := 7 }).accepted_loads
        "2025-04-07" "CA_STK-CA_LAX"
      = initState.accepted_loads "2025-04-07" "CA_STK-CA_LAX" ∧
    getLaneKey KMA.CA_LAX KMA.CA_STK ≠ getLaneKey KMA.CA_STK KMA.CA_LAX :=
  ⟨increment_frame_and_directional_independence.2.1 initState KMA.CA_LAX KMA.CA_STK
      { year := 2025, month := 4, day := 7 } "2025-04-07" "CA_STK-CA_LAX"
      (Or.inr (by decide)),
   increment_frame_and_directional_independence.2.2.1 KMA.CA_LAX KMA.CA_STK (by decide)⟩

/-- C7: `process_load_offers` (one shared simulation instance, one call per
load in input order) returns an order-preserving partition of its input:
both outputs are subsequences of the input and every input load is counted
exactly once across the two outputs. -/
theorem process_load_offers_is_partition (loads : List Load) (rs : List ℚ) :
    (process_load_offers loads rs).1.Sublist loads ∧
    (process_load_offers loads rs).2.Sublist loads ∧
    ∀ l, (process_load_offers loads rs).1.count l
        + (process_load_offers loads rs).2.count l = loads.count l := by
  have h := processLoop_partition initState loads rs
  simpa [process_load_offers] using h

/-- C8: for a load with zero or negative mileage, the cost per mile is
defined to be 0 (no division fault), and the decision path continues with
the 0.7 low-cpm factor; `accept_load` is a total function of
(load, tracker state, draw) by construction. -/
theorem nonpositive_miles_cpm_zero (l : Load) (h : l.miles ≤ 0) :
    calculateCostPerMile l = 0 ∧ cpmFactor (calculateCostPerMile l) = 7/10 := by
  have h0 : calculateCostPerMile l = 0 := by
    simp [calculateCostPerMile]
    omega
  refine ⟨h0, ?_⟩
  rw [h0]
  norm_num [cpmFactor]

/-- C8 witness: a zero-mileage load has cost per mile 0 and factor 0.7. -/
theorem nonpositive_miles_cpm_zero_witness :
    calculateCostPerMile
        { id := "w8", origin := { kma := KMA.AZ_PHO, latitude := 0, longitude := 0 },
          destination := { kma := KMA.IN_IND, latitude := 0, longitude := 0 },
          miles := 0, pickup_date := { year := 2025, month := 4, day := 7 },
          cost := 500, weight := 20000 } = 0 ∧
    cpmFactor (calculateCostPerMile
        { id := "w8", origin := { kma := KMA.AZ_PHO, latitude := 0, longitude := 0 },
          destination := { kma := KMA.IN_IND, latitude := 0, longitude := 0 },
          miles := 0, pickup_date := { year := 2025, month := 4, day := 7 },
          cost := 500, weight := 20000 }) = 7/10 :=
  nonpositive_miles_cpm_zero _ (by decide)

/-- C9: `calculate_acceptance_rate` (a fresh simulation instance scoped to
the call, by construction) counts exactly the loads whose origin and
destination match the requested directional pair, accepts at most that
many, and returns rate accepted/total when total > 0 and 0 otherwise. -/
theorem calculate_acceptance_rate_spec (o d : KMA) (loads : List Load) (rs : List ℚ) :
    (calculate_acceptance_rate o d loads rs).1
      ≤ (calculate_acceptance_rate o d loads rs).2.1 ∧
    (calculate_acceptance_rate o d loads rs).2.1
      = loads.countP (fun l => l.origin.kma = o ∧ l.destination.kma = d) ∧
    (calculate_acceptance_rate o d loads rs).2.2
      = (if 0 < (calculate_acceptance_rate o d loads rs).2.1 then
          ((calculate_acceptance_rate o d loads rs).1 : ℚ)
            / ((calculate_acceptance_rate o d loads rs).2.1 : ℚ)
        else 0) := by
  obtain ⟨h1, h2⟩ := rateLoop_le_count o d initState loads rs
  exact ⟨h1, h2, rfl⟩

/-- C10: the counter reset runs before the weekend check — a weekend load
whose pickup date differs from the tracker's last-seen date still clears
all counters for all dates and lanes and updates the last-seen date, even
though the weekend path performs no increment. -/
theorem weekend_load_still_resets_tracker (s : TrackerState) (l : Load) (r : ℚ)
    (hw : isWeekend l.pickup_date = true)
    (hd : s.last_reset_date ≠ some l.pickup_date) :
    (accept_load s l r).2
      = { accepted_loads := fun _ _ => 0, last_reset_date := some l.pickup_date } := by
  simp only [accept_load, hw, if_true]
  unfold resetCountersIfNewDay
  rw [if_pos hd]

/-- C10 witness: a Saturday load wipes a tracker holding nonzero counters
dated the previous day. -/
theorem weekend_load_still_resets_tracker_witness :
    (accept_load
      { accepted_loads := fun _ _ => 7,
        last_reset_date := some { year := 2025, month := 1, day := 31 } }
      { id := "wa", origin := { kma := KMA.GA_ATL, latitude := 0, longitude := 0 },
        destination := { kma := KMA.IL_CHI, latitude := 0, longitude := 0 },
        miles := 700, pickup_date := { year := 2025, month := 2, day := 1 },
        cost := 1400, weight := 20000 } (1/2)).2
      = { accepted_loads := fun _ _ => 0,
          last_reset_date := some { year := 2025, month := 2, day := 1 } } :=
  weekend_load_still_resets_tracker _ _ (1/2) (by decide) (by decide)

end CarrierSim
